import Mathlib

/-!
# Verification of the better-shot screenshot finishing pipeline

Shallow embedding of the screenshot compositing/finishing pipeline:

* `src/lib/forensic-metadata.ts` — `appendForensicMetadata` (footer appender) and the
  newer `processScreenshotWithDefaultBackground` orchestrator (with the forensic step);
* `src/lib/auto-process.ts` — the older `processScreenshotWithDefaultBackground`
  orchestrator (no forensic step).

The collaborators `canvas-utils.ts` (`createHighQualityCanvas`) and `asset-registry.ts`
(`resolveBackgroundPath`, `getDefaultBackgroundPath`) are not among the provided
sources; they are modelled from the spec where needed (each such definition carries a
`Modelled from the spec:` doc comment).

The DOM / canvas / Tauri effects are embedded as explicit data:

* a canvas is its dimensions plus the list of drawing operations performed on it;
* asynchronous decodes, blob creation and blob reading are outcomes supplied by an
  `Env` record (a function from the requested URL/path to the decode outcome);
* a pipeline run returns an `Except String String` (the rejection message or the
  resolved data-URL string) together with the ordered trace of observable events.
-/

/-- Background kinds, from the `BackgroundType` union in both orchestrator files. -/
inductive BackgroundType where
  | transparent
  | white
  | black
  | gray
  | custom
  | image
  | gradient
deriving Repr, DecidableEq

/-- A decoded bitmap: only its dimensions are relevant to the pipeline. -/
structure Image where
  width : Nat
  height : Nat
deriving Repr, DecidableEq

/-- The `shadow` record passed to `createHighQualityCanvas`. -/
structure Shadow where
  blur : Nat
  offsetX : Nat
  offsetY : Nat
  opacity : Nat
deriving Repr, DecidableEq

/-- The argument record of `createHighQualityCanvas` (field-for-field from the call
sites in `auto-process.ts` / `forensic-metadata.ts`). -/
structure CompositorParams where
  image : Image
  backgroundType : BackgroundType
  customColor : String
  selectedImage : Option String
  bgImage : Option Image
  gradientImage : Option Image
  blurAmount : Nat
  noiseAmount : Nat
  borderRadius : Nat
  padding : Nat
  shadow : Shadow
deriving Repr, DecidableEq

/-- Drawing operations recorded on a canvas.  `fillText` records the text, position,
fill colour, text baseline and font that are in effect when it is issued;
`strokeLine` records the stroke colour, line width and endpoints (rational, because
the separator line of the forensic footer sits at a half-pixel offset). -/
inductive DrawOp where
  | drawImage (x y : Nat)
  | fillRect (color : String) (x y w h : Nat)
  | strokeLine (color : String) (lineWidth : Nat) (x1 y1 x2 y2 : ℚ)
  | fillText (text : String) (x y : Nat) (color : String) (baseline : String) (font : String)
  | composite (p : CompositorParams)
deriving Repr, DecidableEq

/-- A canvas: dimensions plus the drawing operations performed on it. -/
structure Canvas where
  width : Nat
  height : Nat
  ops : List DrawOp
deriving Repr, DecidableEq

/-- `ForensicMetadataOptions` from `forensic-metadata.ts`. -/
structure ForensicMetadataOptions where
  timestampUtc : String
  userLabel : String
deriving Repr, DecidableEq

def FONT_FAMILY : String :=
  "ui-monospace, SFMono-Regular, Menlo, Monaco, Consolas, \"Liberation Mono\", \"Courier New\", monospace"

/-- `appendForensicMetadata` from `forensic-metadata.ts`: grows the canvas downward by
`footerHeight`, copies the source, fills the footer band, strokes a separator at the
seam, and draws the two metadata text lines. -/
def appendForensicMetadata (sourceCanvas : Canvas)
    (opts : ForensicMetadataOptions) : Canvas :=
  let footerPaddingX : Nat := 24
  let footerPaddingY : Nat := 12
  let lineGap : Nat := 4
  let fontSize : Nat := 14
  let lineHeight : Nat := 18
  let footerHeight : Nat := footerPaddingY * 2 + lineHeight * 2 + lineGap
  let outputWidth : Nat := sourceCanvas.width
  let outputHeight : Nat := sourceCanvas.height + footerHeight
  let font : String := toString fontSize ++ "px " ++ FONT_FAMILY
  let startX : Nat := footerPaddingX
  let startY : Nat := sourceCanvas.height + footerPaddingY
  { width := outputWidth
    height := outputHeight
    ops :=
      [ DrawOp.drawImage 0 0
      , DrawOp.fillRect "#f8fafc" 0 sourceCanvas.height outputWidth footerHeight
      , DrawOp.strokeLine "#e2e8f0" 1 0 ((sourceCanvas.height : ℚ) + 1/2)
          (outputWidth : ℚ) ((sourceCanvas.height : ℚ) + 1/2)
      , DrawOp.fillText ("UTC: " ++ opts.timestampUtc) startX startY "#0f172a" "top" font
      , DrawOp.fillText ("User: " ++ opts.userLabel) startX (startY + lineHeight + lineGap)
          "#0f172a" "top" font ] }

/-- `buildUserLabel` (closure inside the newer orchestrator): each component falls back
to the literal `"unknown"` when blank after trimming (the JS `trim() || "unknown"`
idiom, under which the empty string is falsy). -/
def buildUserLabel (team user : String) : String :=
  let safeTeam := if team.trim = "" then "unknown" else team.trim
  let safeUser := if user.trim = "" then "unknown" else user.trim
  safeTeam ++ "/" ++ safeUser

/-- `applyForensicMetadata` (closure inside the newer orchestrator).  `optTimestampUtc`
is `options.timestampUtc`; `now` is the value `new Date().toISOString()` would produce,
so `optTimestampUtc.getD now` models `options.timestampUtc ?? new Date().toISOString()`. -/
def applyForensicMetadata (forensicEnabled : Bool) (forensicTeam forensicUser : String)
    (optTimestampUtc : Option String) (now : String) (canvas : Canvas) : Canvas :=
  if !forensicEnabled then
    canvas
  else
    let timestampUtc := optTimestampUtc.getD now
    appendForensicMetadata canvas
      { timestampUtc := timestampUtc
        userLabel := buildUserLabel forensicTeam forensicUser }

/-- Modelled from the spec: `asset-registry.ts` is not among the provided sources.
Per §6 the registry exposes `resolveBackgroundPath(ref) -> concrete loadable location`
and `getDefaultBackgroundPath() -> concrete loadable location` (the fallback), and per
§4.1 a stale/unresolvable reference falls back, once and silently, to the built-in
default background reference.  `lookup` is the registry's `assetId ↔ path` mapping. -/
structure AssetRegistry where
  lookup : String → Option String
  defaultBackgroundPath : String

/-- Modelled from the spec: `getDefaultBackgroundPath` of `asset-registry.ts` returns
the built-in default background location (§6). -/
def getDefaultBackgroundPath (reg : AssetRegistry) : String :=
  reg.defaultBackgroundPath

/-- Modelled from the spec: `resolveBackgroundPath` of `asset-registry.ts` resolves a
stored reference through the registry, falling back to the built-in default background
reference when the reference is stale/unresolvable (§4.1, §6). -/
def resolveBackgroundPath (reg : AssetRegistry) (ref : String) : String :=
  match reg.lookup ref with
  | some path => path
  | none => reg.defaultBackgroundPath

/-- The values read from `settings.json` (`store.get` may return `null`/`undefined`,
modelled by `Option`).  A whole-load failure (`Store.load` or any `get` throwing) is
modelled by `Option StoredSettings = none` at the call sites: in both orchestrators all
`get`s precede all assignments, so a throw leaves every local at its default. -/
structure StoredSettings where
  defaultBackgroundType : Option BackgroundType
  defaultCustomColor : Option String
  defaultBackgroundImage : Option String
  forensicMetadataEnabled : Option Bool
  forensicTeam : Option String
  forensicUser : Option String
deriving Repr, DecidableEq

/-- The resolved per-invocation configuration of the newer orchestrator (the values of
its locals `backgroundType`, `customColor`, `defaultBgImage`, `forensicEnabled`,
`forensicTeam`, `forensicUser` after the settings block). -/
structure ResolvedConfig where
  backgroundType : BackgroundType
  customColor : String
  defaultBgImage : String
  forensicEnabled : Bool
  forensicTeam : String
  forensicUser : String
deriving Repr, DecidableEq

/-- The message logged (via `console.error`) when loading the settings store throws. -/
def settingsFailureLog : String := "Failed to load default background from settings:"

/-- The settings block of the newer orchestrator (`forensic-metadata.ts`): defaults,
then conditional overwrites from the store.  JS truthiness: a stored string overwrites
only when non-empty; `forensicMetadataEnabled` overwrites whenever it is neither `null`
nor `undefined`; a stored `BackgroundType` is a non-empty string, hence always truthy.
The second component is the list of messages logged. -/
def resolveSettings (reg : AssetRegistry) (load : Option StoredSettings) :
    ResolvedConfig × List String :=
  let base : ResolvedConfig :=
    { backgroundType := BackgroundType.image
      customColor := "#667eea"
      defaultBgImage := getDefaultBackgroundPath reg
      forensicEnabled := false
      forensicTeam := ""
      forensicUser := "" }
  match load with
  | none => (base, [settingsFailureLog])
  | some s =>
    let backgroundType :=
      match s.defaultBackgroundType with
      | some bt => bt
      | none => base.backgroundType
    let customColor :=
      match s.defaultCustomColor with
      | some c => if c = "" then base.customColor else c
      | none => base.customColor
    let defaultBgImage :=
      match s.defaultBackgroundImage with
      | some r =>
        if r = "" then base.defaultBgImage
        else if backgroundType == BackgroundType.image
            || backgroundType == BackgroundType.gradient then
          resolveBackgroundPath reg r
        else base.defaultBgImage
      | none => base.defaultBgImage
    let forensicEnabled :=
      match s.forensicMetadataEnabled with
      | some b => b
      | none => base.forensicEnabled
    let forensicTeam :=
      match s.forensicTeam with
      | some t => if t = "" then base.forensicTeam else t
      | none => base.forensicTeam
    let forensicUser :=
      match s.forensicUser with
      | some u => if u = "" then base.forensicUser else u
      | none => base.forensicUser
    ({ backgroundType := backgroundType
       customColor := customColor
       defaultBgImage := defaultBgImage
       forensicEnabled := forensicEnabled
       forensicTeam := forensicTeam
       forensicUser := forensicUser }, [])

/-- Modelled from the spec: `createHighQualityCanvas` lives in
`src/lib/canvas-utils.ts`, which is not among the provided sources.  Per §4.2–§4.4 the
output surface is sized `(sourceWidth + 2×padding, sourceHeight + 2×padding)` and the
composition itself (background render, shadow, rounded clip, noise overlay) is
abstracted as a single recorded composite operation carrying the exact parameter
record it was invoked with. -/
def createHighQualityCanvas (p : CompositorParams) : Canvas :=
  { width := p.image.width + 2 * p.padding
    height := p.image.height + 2 * p.padding
    ops := [DrawOp.composite p] }

/-- Observable events of a pipeline run, in order. -/
inductive Event where
  | settingsLoad
  | log (msg : String)
  | sourceDecodeStart (url : String)
  | sourceLoaded
  | sourceError
  | bgDecodeStart (path : String)
  | bgLoaded
  | bgError
  | compose (p : CompositorParams)
  | encode (mime : String) (quality : ℚ)
  | readBlob
deriving Repr, DecidableEq

/-- The host environment of a run: `convertFileSrc` (Tauri), the outcome of decoding
an `<img>` from a given URL (`none` fires `onerror`), whether `toBlob` yields a blob,
the blob contents as a function of the encoded canvas, whether the `FileReader`
succeeds, and the data-URL it produces from a blob. -/
structure Env where
  convertFileSrc : String → String
  sourceDecode : String → Option Image
  bgDecode : String → Option Image
  blobOk : Bool
  encodeBlob : Canvas → String
  readOk : Bool
  mkDataURL : String → String

/-- The shared tail of both orchestrators: `outputCanvas.toBlob(cb, "image/png", 1.0)`
followed by `FileReader.readAsDataURL`; the callback rejects when the blob is null or
the read fails, and resolves with the reader's data-URL result otherwise. -/
def finishEncode (env : Env) (outputCanvas : Canvas) (evs : List Event) :
    Except String String × List Event :=
  let evs := evs ++ [Event.encode "image/png" 1]
  if env.blobOk then
    let blob := env.encodeBlob outputCanvas
    let evs := evs ++ [Event.readBlob]
    if env.readOk then
      (Except.ok (env.mkDataURL blob), evs)
    else
      (Except.error "Failed to read processed image", evs)
  else
    (Except.error "Failed to create blob from canvas", evs)

namespace ForensicPipeline

/-- The `createHighQualityCanvas` argument record built inside `bgImage.onload` in the
`image`/`gradient` branch of both orchestrators (the fields are identical in
`auto-process.ts` and the newer `forensic-metadata.ts` orchestrator). -/
def bgBranchParams (backgroundType : BackgroundType) (customColor defaultBgImage : String)
    (img bg : Image) : CompositorParams :=
  let isGradient : Bool := backgroundType == BackgroundType.gradient
  { image := img
    backgroundType := backgroundType
    customColor := customColor
    selectedImage := if isGradient then none else some defaultBgImage
    bgImage := if isGradient then none else some bg
    blurAmount := 0
    noiseAmount := 20
    borderRadius := 18
    padding := 100
    gradientImage := if isGradient then some bg else none
    shadow := { blur := 33, offsetX := 18, offsetY := 23, opacity := 39 } }

/-- The `createHighQualityCanvas` argument record built in the non-`image`/`gradient`
branch of both orchestrators: padding and the whole shadow are zeroed exactly when the
background type is `transparent`. -/
def plainBranchParams (backgroundType : BackgroundType) (customColor : String)
    (img : Image) : CompositorParams :=
  let isTransparent : Bool := backgroundType == BackgroundType.transparent
  { image := img
    backgroundType := backgroundType
    customColor := customColor
    selectedImage := none
    bgImage := none
    gradientImage := none
    blurAmount := 0
    noiseAmount := 20
    borderRadius := 18
    padding := if isTransparent then 0 else 100
    shadow :=
      if isTransparent then { blur := 0, offsetX := 0, offsetY := 0, opacity := 0 }
      else { blur := 33, offsetX := 18, offsetY := 23, opacity := 39 } }

/-- The newer `processScreenshotWithDefaultBackground` (second document of
`forensic-metadata.ts`): load settings (recovering defaults on failure), decode the
source image, then either decode the background image (`image`/`gradient`) or go
straight to compositing, apply the forensic step, and encode.  Rejections carry the
exact `Error` messages of the source. -/
def processScreenshotWithDefaultBackground (reg : AssetRegistry) (env : Env)
    (load : Option StoredSettings) (imagePath : String)
    (optTimestampUtc : Option String) (now : String) :
    Except String String × List Event :=
  let rs := resolveSettings reg load
  let cfg := rs.1
  let ev0 := Event.settingsLoad :: rs.2.map Event.log
  let assetUrl := env.convertFileSrc imagePath
  let ev1 := ev0 ++ [Event.sourceDecodeStart assetUrl]
  match env.sourceDecode assetUrl with
  | none =>
    (Except.error ("Failed to load image from: " ++ imagePath), ev1 ++ [Event.sourceError])
  | some img =>
    let ev2 := ev1 ++ [Event.sourceLoaded]
    if cfg.backgroundType == BackgroundType.image
        || cfg.backgroundType == BackgroundType.gradient then
      let ev3 := ev2 ++ [Event.bgDecodeStart cfg.defaultBgImage]
      match env.bgDecode cfg.defaultBgImage with
      | none =>
        (Except.error "Failed to load background image", ev3 ++ [Event.bgError])
      | some bg =>
        let params := bgBranchParams cfg.backgroundType cfg.customColor cfg.defaultBgImage img bg
        let canvas := createHighQualityCanvas params
        let outputCanvas := applyForensicMetadata cfg.forensicEnabled cfg.forensicTeam
          cfg.forensicUser optTimestampUtc now canvas
        finishEncode env outputCanvas (ev3 ++ [Event.bgLoaded, Event.compose params])
    else
      let params := plainBranchParams cfg.backgroundType cfg.customColor img
      let canvas := createHighQualityCanvas params
      let outputCanvas := applyForensicMetadata cfg.forensicEnabled cfg.forensicTeam
        cfg.forensicUser optTimestampUtc now canvas
      finishEncode env outputCanvas (ev2 ++ [Event.compose params])

end ForensicPipeline

namespace AutoProcess

/-- The resolved per-invocation configuration of the older orchestrator
(`auto-process.ts`): it has no forensic locals. -/
structure AutoResolvedConfig where
  backgroundType : BackgroundType
  customColor : String
  defaultBgImage : String
deriving Repr, DecidableEq

/-- The settings block of the older orchestrator (`auto-process.ts`): identical to the
newer one but reading only the three background keys. -/
def resolveSettingsAuto (reg : AssetRegistry) (load : Option StoredSettings) :
    AutoResolvedConfig × List String :=
  let base : AutoResolvedConfig :=
    { backgroundType := BackgroundType.image
      customColor := "#667eea"
      defaultBgImage := getDefaultBackgroundPath reg }
  match load with
  | none => (base, [settingsFailureLog])
  | some s =>
    let backgroundType :=
      match s.defaultBackgroundType with
      | some bt => bt
      | none => base.backgroundType
    let customColor :=
      match s.defaultCustomColor with
      | some c => if c = "" then base.customColor else c
      | none => base.customColor
    let defaultBgImage :=
      match s.defaultBackgroundImage with
      | some r =>
        if r = "" then base.defaultBgImage
        else if backgroundType == BackgroundType.image
            || backgroundType == BackgroundType.gradient then
          resolveBackgroundPath reg r
        else base.defaultBgImage
      | none => base.defaultBgImage
    ({ backgroundType := backgroundType
       customColor := customColor
       defaultBgImage := defaultBgImage }, [])

/-- The older `processScreenshotWithDefaultBackground` (`auto-process.ts`): identical
orchestration but with no forensic step — the composite canvas is encoded directly. -/
def processScreenshotWithDefaultBackground (reg : AssetRegistry) (env : Env)
    (load : Option StoredSettings) (imagePath : String) :
    Except String String × List Event :=
  let rs := resolveSettingsAuto reg load
  let cfg := rs.1
  let ev0 := Event.settingsLoad :: rs.2.map Event.log
  let assetUrl := env.convertFileSrc imagePath
  let ev1 := ev0 ++ [Event.sourceDecodeStart assetUrl]
  match env.sourceDecode assetUrl with
  | none =>
    (Except.error ("Failed to load image from: " ++ imagePath), ev1 ++ [Event.sourceError])
  | some img =>
    let ev2 := ev1 ++ [Event.sourceLoaded]
    if cfg.backgroundType == BackgroundType.image
        || cfg.backgroundType == BackgroundType.gradient then
      let ev3 := ev2 ++ [Event.bgDecodeStart cfg.defaultBgImage]
      match env.bgDecode cfg.defaultBgImage with
      | none =>
        (Except.error "Failed to load background image", ev3 ++ [Event.bgError])
      | some bg =>
        let params := ForensicPipeline.bgBranchParams cfg.backgroundType cfg.customColor
          cfg.defaultBgImage img bg
        let canvas := createHighQualityCanvas params
        finishEncode env canvas (ev3 ++ [Event.bgLoaded, Event.compose params])
    else
      let params := ForensicPipeline.plainBranchParams cfg.backgroundType cfg.customColor img
      let canvas := createHighQualityCanvas params
      finishEncode env canvas (ev2 ++ [Event.compose params])

end AutoProcess

/-- The parameter records of all compositor invocations recorded in a trace. -/
def composeParamsOf (tr : List Event) : List CompositorParams :=
  tr.filterMap fun e =>
    match e with
    | Event.compose p => some p
    | _ => none

/-- The text-drawing operations of a canvas, in issue order. -/
def textOps (c : Canvas) : List DrawOp :=
  c.ops.filter fun op =>
    match op with
    | DrawOp.fillText _ _ _ _ _ _ => true
    | _ => false

/-- The URLs of all source-image decodes started in a trace. -/
def sourceStarts (tr : List Event) : List String :=
  tr.filterMap fun e =>
    match e with
    | Event.sourceDecodeStart url => some url
    | _ => none

/-- The paths of all background-image decodes started in a trace. -/
def bgStarts (tr : List Event) : List String :=
  tr.filterMap fun e =>
    match e with
    | Event.bgDecodeStart path => some path
    | _ => none

/-- The events appended by the shared `toBlob`/`FileReader` tail. -/
def encodeTail (env : Env) : List Event :=
  [Event.encode "image/png" 1] ++ if env.blobOk then [Event.readBlob] else []

/-- The result produced by the shared `toBlob`/`FileReader` tail for a given canvas. -/
def encodeResult (env : Env) (c : Canvas) : Except String String :=
  if env.blobOk then
    if env.readOk then Except.ok (env.mkDataURL (env.encodeBlob c))
    else Except.error "Failed to read processed image"
  else Except.error "Failed to create blob from canvas"

/-- A concrete asset registry used by witnesses. -/
def regA : AssetRegistry :=
  { lookup := fun r => if r = "bg-aurora" then some "/assets/backgrounds/aurora.jpg" else none
    defaultBackgroundPath := "/assets/backgrounds/default.jpg" }

/-- A concrete, fully successful host environment used by witnesses. -/
def envA : Env :=
  { convertFileSrc := fun p => "asset://localhost/" ++ p
    sourceDecode := fun _ => some { width := 800, height := 600 }
    bgDecode := fun _ => some { width := 1920, height := 1080 }
    blobOk := true
    encodeBlob := fun _ => "PNGBYTES"
    readOk := true
    mkDataURL := fun b => "data:image/png;base64," ++ b }

/-- Stored settings selecting a transparent background. -/
def loadTransparent : StoredSettings :=
  { defaultBackgroundType := some BackgroundType.transparent
    defaultCustomColor := none
    defaultBackgroundImage := none
    forensicMetadataEnabled := some true
    forensicTeam := some "security"
    forensicUser := some "" }

/-- Stored settings selecting an image background whose stored reference does not
resolve through the registry. -/
def loadStale : StoredSettings :=
  { defaultBackgroundType := some BackgroundType.image
    defaultCustomColor := none
    defaultBackgroundImage := some "stale-asset"
    forensicMetadataEnabled := some false
    forensicTeam := none
    forensicUser := none }

/-- A host environment whose source-image decode fails, used as a failing witness
input. -/
def envSourceFail : Env :=
  { envA with sourceDecode := fun _ => none }

@[simp] theorem composeParamsOf_settingsLoad (tr : List Event) :
    composeParamsOf (Event.settingsLoad :: tr) = composeParamsOf tr := rfl

@[simp] theorem composeParamsOf_log (msg : String) (tr : List Event) :
    composeParamsOf (Event.log msg :: tr) = composeParamsOf tr := rfl

@[simp] theorem composeParamsOf_sourceDecodeStart (url : String) (tr : List Event) :
    composeParamsOf (Event.sourceDecodeStart url :: tr) = composeParamsOf tr := rfl

@[simp] theorem composeParamsOf_sourceLoaded (tr : List Event) :
    composeParamsOf (Event.sourceLoaded :: tr) = composeParamsOf tr := rfl

@[simp] theorem composeParamsOf_sourceError (tr : List Event) :
    composeParamsOf (Event.sourceError :: tr) = composeParamsOf tr := rfl

@[simp] theorem composeParamsOf_bgDecodeStart (pth : String) (tr : List Event) :
    composeParamsOf (Event.bgDecodeStart pth :: tr) = composeParamsOf tr := rfl

@[simp] theorem composeParamsOf_bgLoaded (tr : List Event) :
    composeParamsOf (Event.bgLoaded :: tr) = composeParamsOf tr := rfl

@[simp] theorem composeParamsOf_bgError (tr : List Event) :
    composeParamsOf (Event.bgError :: tr) = composeParamsOf tr := rfl

@[simp] theorem composeParamsOf_compose (p : CompositorParams) (tr : List Event) :
    composeParamsOf (Event.compose p :: tr) = p :: composeParamsOf tr := rfl

@[simp] theorem composeParamsOf_encode (mime : String) (q : ℚ) (tr : List Event) :
    composeParamsOf (Event.encode mime q :: tr) = composeParamsOf tr := rfl

@[simp] theorem composeParamsOf_readBlob (tr : List Event) :
    composeParamsOf (Event.readBlob :: tr) = composeParamsOf tr := rfl

@[simp] theorem composeParamsOf_nil : composeParamsOf ([] : List Event) = [] := rfl

@[simp] theorem sourceStarts_settingsLoad (tr : List Event) :
    sourceStarts (Event.settingsLoad :: tr) = sourceStarts tr := rfl

@[simp] theorem sourceStarts_log (msg : String) (tr : List Event) :
    sourceStarts (Event.log msg :: tr) = sourceStarts tr := rfl

@[simp] theorem sourceStarts_sourceDecodeStart (url : String) (tr : List Event) :
    sourceStarts (Event.sourceDecodeStart url :: tr) = url :: sourceStarts tr := rfl

@[simp] theorem sourceStarts_sourceLoaded (tr : List Event) :
    sourceStarts (Event.sourceLoaded :: tr) = sourceStarts tr := rfl

@[simp] theorem sourceStarts_sourceError (tr : List Event) :
    sourceStarts (Event.sourceError :: tr) = sourceStarts tr := rfl

@[simp] theorem sourceStarts_bgDecodeStart (pth : String) (tr : List Event) :
    sourceStarts (Event.bgDecodeStart pth :: tr) = sourceStarts tr := rfl

@[simp] theorem sourceStarts_bgLoaded (tr : List Event) :
    sourceStarts (Event.bgLoaded :: tr) = sourceStarts tr := rfl

@[simp] theorem sourceStarts_bgError (tr : List Event) :
    sourceStarts (Event.bgError :: tr) = sourceStarts tr := rfl

@[simp] theorem sourceStarts_compose (p : CompositorParams) (tr : List Event) :
    sourceStarts (Event.compose p :: tr) = sourceStarts tr := rfl

@[simp] theorem sourceStarts_encode (mime : String) (q : ℚ) (tr : List Event) :
    sourceStarts (Event.encode mime q :: tr) = sourceStarts tr := rfl

@[simp] theorem sourceStarts_readBlob (tr : List Event) :
    sourceStarts (Event.readBlob :: tr) = sourceStarts tr := rfl

@[simp] theorem sourceStarts_nil : sourceStarts ([] : List Event) = [] := rfl

@[simp] theorem bgStarts_settingsLoad (tr : List Event) :
    bgStarts (Event.settingsLoad :: tr) = bgStarts tr := rfl

@[simp] theorem bgStarts_log (msg : String) (tr : List Event) :
    bgStarts (Event.log msg :: tr) = bgStarts tr := rfl

@[simp] theorem bgStarts_sourceDecodeStart (url : String) (tr : List Event) :
    bgStarts (Event.sourceDecodeStart url :: tr) = bgStarts tr := rfl

@[simp] theorem bgStarts_sourceLoaded (tr : List Event) :
    bgStarts (Event.sourceLoaded :: tr) = bgStarts tr := rfl

@[simp] theorem bgStarts_sourceError (tr : List Event) :
    bgStarts (Event.sourceError :: tr) = bgStarts tr := rfl

@[simp] theorem bgStarts_bgDecodeStart (pth : String) (tr : List Event) :
    bgStarts (Event.bgDecodeStart pth :: tr) = pth :: bgStarts tr := rfl

@[simp] theorem bgStarts_bgLoaded (tr : List Event) :
    bgStarts (Event.bgLoaded :: tr) = bgStarts tr := rfl

@[simp] theorem bgStarts_bgError (tr : List Event) :
    bgStarts (Event.bgError :: tr) = bgStarts tr := rfl

@[simp] theorem bgStarts_compose (p : CompositorParams) (tr : List Event) :
    bgStarts (Event.compose p :: tr) = bgStarts tr := rfl

@[simp] theorem bgStarts_encode (mime : String) (q : ℚ) (tr : List Event) :
    bgStarts (Event.encode mime q :: tr) = bgStarts tr := rfl

@[simp] theorem bgStarts_readBlob (tr : List Event) :
    bgStarts (Event.readBlob :: tr) = bgStarts tr := rfl

@[simp] theorem bgStarts_nil : bgStarts ([] : List Event) = [] := rfl

@[simp] theorem sourceStarts_append (a b : List Event) :
    sourceStarts (a ++ b) = sourceStarts a ++ sourceStarts b := by
  simp [sourceStarts]

@[simp] theorem sourceStarts_map_log (xs : List String) :
    sourceStarts (xs.map Event.log) = [] := by
  induction xs with
  | nil => rfl
  | cons x xs ih => rw [List.map_cons, sourceStarts_log, ih]

@[simp] theorem sourceStarts_encodeTail (env : Env) :
    sourceStarts (encodeTail env) = [] := by
  unfold encodeTail
  rcases env.blobOk <;> simp [sourceStarts]

@[simp] theorem bgStarts_map_log (xs : List String) :
    bgStarts (xs.map Event.log) = [] := by
  induction xs with
  | nil => rfl
  | cons x xs ih => rw [List.map_cons, bgStarts_log, ih]

@[simp] theorem bgStarts_append (a b : List Event) :
    bgStarts (a ++ b) = bgStarts a ++ bgStarts b := by
  simp [bgStarts]

@[simp] theorem bgStarts_encodeTail (env : Env) :
    bgStarts (encodeTail env) = [] := by
  unfold encodeTail
  rcases env.blobOk <;> simp [bgStarts]

@[simp] theorem composeParamsOf_map_log (xs : List String) :
    composeParamsOf (xs.map Event.log) = [] := by
  induction xs with
  | nil => rfl
  | cons x xs ih => rw [List.map_cons, composeParamsOf_log, ih]

@[simp] theorem composeParamsOf_append (a b : List Event) :
    composeParamsOf (a ++ b) = composeParamsOf a ++ composeParamsOf b := by
  simp [composeParamsOf]

@[simp] theorem composeParamsOf_encodeTail (env : Env) :
    composeParamsOf (encodeTail env) = [] := by
  unfold encodeTail
  rcases env.blobOk <;> simp [composeParamsOf]

theorem finishEncode_trace (env : Env) (c : Canvas) (evs : List Event) :
    (finishEncode env c evs).2 = evs ++ encodeTail env := by
  unfold finishEncode encodeTail
  rcases hb : env.blobOk <;> rcases hr : env.readOk <;> simp [hb, hr]

theorem finishEncode_result (env : Env) (c : Canvas) (evs : List Event) :
    (finishEncode env c evs).1 = encodeResult env c := by
  unfold finishEncode encodeResult
  rcases hb : env.blobOk <;> rcases hr : env.readOk <;> simp [hb, hr]

/-- Trace characterization of the newer orchestrator: settings load (with its log on
failure), source decode, then either the background branch or the direct branch, then
the encode tail. -/
theorem forensic_run_trace (reg : AssetRegistry) (env : Env)
    (load : Option StoredSettings) (imagePath : String)
    (optTs : Option String) (now : String) :
    (ForensicPipeline.processScreenshotWithDefaultBackground reg env load imagePath optTs now).2 =
      Event.settingsLoad :: (resolveSettings reg load).2.map Event.log
        ++ [Event.sourceDecodeStart (env.convertFileSrc imagePath)]
        ++ (match env.sourceDecode (env.convertFileSrc imagePath) with
            | none => [Event.sourceError]
            | some img =>
              let cfg := (resolveSettings reg load).1
              Event.sourceLoaded ::
                (if cfg.backgroundType == BackgroundType.image
                    || cfg.backgroundType == BackgroundType.gradient then
                  Event.bgDecodeStart cfg.defaultBgImage ::
                    (match env.bgDecode cfg.defaultBgImage with
                    | none => [Event.bgError]
                    | some bg =>
                      [Event.bgLoaded,
                        Event.compose (ForensicPipeline.bgBranchParams cfg.backgroundType
                          cfg.customColor cfg.defaultBgImage img bg)] ++ encodeTail env)
                else
                  Event.compose (ForensicPipeline.plainBranchParams cfg.backgroundType
                    cfg.customColor img) :: encodeTail env)) := by
  simp only [ForensicPipeline.processScreenshotWithDefaultBackground]
  rcases hsd : env.sourceDecode (env.convertFileSrc imagePath) with _ | img
  · simp
  · rcases hbt : ((resolveSettings reg load).1.backgroundType == BackgroundType.image
        || (resolveSettings reg load).1.backgroundType == BackgroundType.gradient) with _ | _
    · simp only [hbt, if_false, Bool.false_eq_true, finishEncode_trace]
      simp
    · simp only [hbt, if_true, finishEncode_trace]
      rcases hbg : env.bgDecode (resolveSettings reg load).1.defaultBgImage with _ | bg
      · simp
      · simp [finishEncode_trace]

/-- Result characterization of the newer orchestrator. -/
theorem forensic_run_result (reg : AssetRegistry) (env : Env)
    (load : Option StoredSettings) (imagePath : String)
    (optTs : Option String) (now : String) :
    (ForensicPipeline.processScreenshotWithDefaultBackground reg env load imagePath optTs now).1 =
      (match env.sourceDecode (env.convertFileSrc imagePath) with
       | none => Except.error ("Failed to load image from: " ++ imagePath)
       | some img =>
         let cfg := (resolveSettings reg load).1
         if cfg.backgroundType == BackgroundType.image
             || cfg.backgroundType == BackgroundType.gradient then
           match env.bgDecode cfg.defaultBgImage with
           | none => Except.error "Failed to load background image"
           | some bg =>
             encodeResult env (applyForensicMetadata cfg.forensicEnabled cfg.forensicTeam
               cfg.forensicUser optTs now
               (createHighQualityCanvas (ForensicPipeline.bgBranchParams cfg.backgroundType
                 cfg.customColor cfg.defaultBgImage img bg)))
         else
           encodeResult env (applyForensicMetadata cfg.forensicEnabled cfg.forensicTeam
             cfg.forensicUser optTs now
             (createHighQualityCanvas (ForensicPipeline.plainBranchParams cfg.backgroundType
               cfg.customColor img)))) := by
  simp only [ForensicPipeline.processScreenshotWithDefaultBackground]
  rcases hsd : env.sourceDecode (env.convertFileSrc imagePath) with _ | img
  · simp
  · rcases hbt : ((resolveSettings reg load).1.backgroundType == BackgroundType.image
        || (resolveSettings reg load).1.backgroundType == BackgroundType.gradient) with _ | _
    · simp [hbt, finishEncode_result]
    · rcases hbg : env.bgDecode (resolveSettings reg load).1.defaultBgImage with _ | bg
      · simp [hbt, hbg]
      · simp [hbt, hbg, finishEncode_result]

/-- Trace characterization of the older orchestrator (`auto-process.ts`). -/
theorem auto_run_trace (reg : AssetRegistry) (env : Env)
    (load : Option StoredSettings) (imagePath : String) :
    (AutoProcess.processScreenshotWithDefaultBackground reg env load imagePath).2 =
      Event.settingsLoad :: (AutoProcess.resolveSettingsAuto reg load).2.map Event.log
        ++ [Event.sourceDecodeStart (env.convertFileSrc imagePath)]
        ++ (match env.sourceDecode (env.convertFileSrc imagePath) with
            | none => [Event.sourceError]
            | some img =>
              let cfg := (AutoProcess.resolveSettingsAuto reg load).1
              Event.sourceLoaded ::
                (if cfg.backgroundType == BackgroundType.image
                    || cfg.backgroundType == BackgroundType.gradient then
                  Event.bgDecodeStart cfg.defaultBgImage ::
                    (match env.bgDecode cfg.defaultBgImage with
                    | none => [Event.bgError]
                    | some bg =>
                      [Event.bgLoaded,
                        Event.compose (ForensicPipeline.bgBranchParams cfg.backgroundType
                          cfg.customColor cfg.defaultBgImage img bg)] ++ encodeTail env)
                else
                  Event.compose (ForensicPipeline.plainBranchParams cfg.backgroundType
                    cfg.customColor img) :: encodeTail env)) := by
  simp only [AutoProcess.processScreenshotWithDefaultBackground]
  rcases hsd : env.sourceDecode (env.convertFileSrc imagePath) with _ | img
  · simp
  · rcases hbt : ((AutoProcess.resolveSettingsAuto reg load).1.backgroundType == BackgroundType.image
        || (AutoProcess.resolveSettingsAuto reg load).1.backgroundType == BackgroundType.gradient) with _ | _
    · simp only [hbt, if_false, Bool.false_eq_true, finishEncode_trace]
      simp
    · simp only [hbt, if_true, finishEncode_trace]
      rcases hbg : env.bgDecode (AutoProcess.resolveSettingsAuto reg load).1.defaultBgImage with _ | bg
      · simp
      · simp [finishEncode_trace]

/-- Result characterization of the older orchestrator. -/
theorem auto_run_result (reg : AssetRegistry) (env : Env)
    (load : Option StoredSettings) (imagePath : String) :
    (AutoProcess.processScreenshotWithDefaultBackground reg env load imagePath).1 =
      (match env.sourceDecode (env.convertFileSrc imagePath) with
       | none => Except.error ("Failed to load image from: " ++ imagePath)
       | some img =>
         let cfg := (AutoProcess.resolveSettingsAuto reg load).1
         if cfg.backgroundType == BackgroundType.image
             || cfg.backgroundType == BackgroundType.gradient then
           match env.bgDecode cfg.defaultBgImage with
           | none => Except.error "Failed to load background image"
           | some bg =>
             encodeResult env (createHighQualityCanvas (ForensicPipeline.bgBranchParams
               cfg.backgroundType cfg.customColor cfg.defaultBgImage img bg))
         else
           encodeResult env (createHighQualityCanvas (ForensicPipeline.plainBranchParams
             cfg.backgroundType cfg.customColor img))) := by
  simp only [AutoProcess.processScreenshotWithDefaultBackground]
  rcases hsd : env.sourceDecode (env.convertFileSrc imagePath) with _ | img
  · simp
  · rcases hbt : ((AutoProcess.resolveSettingsAuto reg load).1.backgroundType == BackgroundType.image
        || (AutoProcess.resolveSettingsAuto reg load).1.backgroundType == BackgroundType.gradient) with _ | _
    · simp [hbt, finishEncode_result]
    · rcases hbg : env.bgDecode (AutoProcess.resolveSettingsAuto reg load).1.defaultBgImage with _ | bg
      · simp [hbt, hbg]
      · simp [hbt, hbg, finishEncode_result]

theorem resolveSettings_defaultBgImage_eq (reg : AssetRegistry) (s : StoredSettings) :
    (resolveSettings reg (some s)).1.defaultBgImage =
      match s.defaultBackgroundImage with
      | some r =>
        if r = "" then reg.defaultBackgroundPath
        else if (resolveSettings reg (some s)).1.backgroundType == BackgroundType.image
            || (resolveSettings reg (some s)).1.backgroundType == BackgroundType.gradient then
          resolveBackgroundPath reg r
        else reg.defaultBackgroundPath
      | none => reg.defaultBackgroundPath := rfl

theorem bgDecodeStart_not_mem_map_log (q : String) (xs : List String) :
    Event.bgDecodeStart q ∉ xs.map Event.log := by
  simp

theorem encodeResult_ok (env : Env) (c : Canvas) (out : String)
    (h : encodeResult env c = Except.ok out) :
    env.blobOk = true ∧ env.readOk = true ∧ out = env.mkDataURL (env.encodeBlob c) := by
  unfold encodeResult at h
  rcases hb : env.blobOk <;> rw [hb] at h
  · simp at h
  · rcases hr : env.readOk <;> rw [hr] at h <;> simp at h
    exact ⟨rfl, rfl, h.symm⟩

theorem applyForensicMetadata_disabled (team user : String) (optTs : Option String)
    (now : String) (c : Canvas) :
    applyForensicMetadata false team user optTs now c = c := rfl

/-- The two settings blocks agree on the three background fields (the older
orchestrator reads the same three keys with identical logic) and emit the same log. -/
theorem resolveSettingsAuto_agrees (reg : AssetRegistry) (load : Option StoredSettings) :
    (AutoProcess.resolveSettingsAuto reg load).1.backgroundType
        = (resolveSettings reg load).1.backgroundType ∧
    (AutoProcess.resolveSettingsAuto reg load).1.customColor
        = (resolveSettings reg load).1.customColor ∧
    (AutoProcess.resolveSettingsAuto reg load).1.defaultBgImage
        = (resolveSettings reg load).1.defaultBgImage ∧
    (AutoProcess.resolveSettingsAuto reg load).2 = (resolveSettings reg load).2 := by
  rcases load with _ | s <;> exact ⟨rfl, rfl, rfl, rfl⟩

/-- C1: whenever the resolved background type is `transparent`, every compositor
invocation of the run receives `padding = 0` and an all-zero shadow (opacity, blur and
both offsets 0), whatever the other settings, environment outcomes and inputs are —
in the newer orchestrator and in the older one alike. -/
theorem C1_transparent_forces_zero_padding_and_shadow
    (reg : AssetRegistry) (env : Env) (load : Option StoredSettings)
    (imagePath : String) (optTs : Option String) (now : String)
    (htr : (resolveSettings reg load).1.backgroundType = BackgroundType.transparent) :
    (∀ p ∈ composeParamsOf
        (ForensicPipeline.processScreenshotWithDefaultBackground reg env load imagePath
          optTs now).2,
      p.padding = 0 ∧
        p.shadow = { blur := 0, offsetX := 0, offsetY := 0, opacity := 0 }) ∧
    (∀ p ∈ composeParamsOf
        (AutoProcess.processScreenshotWithDefaultBackground reg env load imagePath).2,
      p.padding = 0 ∧
        p.shadow = { blur := 0, offsetX := 0, offsetY := 0, opacity := 0 }) := by
  obtain ⟨hbtA, hccA, -, -⟩ := resolveSettingsAuto_agrees reg load
  have htrA : (AutoProcess.resolveSettingsAuto reg load).1.backgroundType
      = BackgroundType.transparent := hbtA.trans htr
  constructor
  · intro p hp
    rw [forensic_run_trace] at hp
    rcases hsd : env.sourceDecode (env.convertFileSrc imagePath) with _ | img
    · rw [hsd] at hp
      simp at hp
    · rw [hsd] at hp
      simp only [htr] at hp
      simp only [List.cons_append, List.nil_append] at hp
      have hp' : p ∈ composeParamsOf
          (Event.compose (ForensicPipeline.plainBranchParams BackgroundType.transparent
            (resolveSettings reg load).1.customColor img) :: encodeTail env) := by
        simpa [composeParamsOf_map_log, composeParamsOf_append] using hp
      rw [composeParamsOf_compose, composeParamsOf_encodeTail] at hp'
      rcases List.mem_singleton.mp hp' with rfl
      exact ⟨rfl, rfl⟩
  · intro p hp
    rw [auto_run_trace] at hp
    rcases hsd : env.sourceDecode (env.convertFileSrc imagePath) with _ | img
    · rw [hsd] at hp
      simp at hp
    · rw [hsd] at hp
      simp only [htrA] at hp
      simp only [List.cons_append, List.nil_append] at hp
      have hp' : p ∈ composeParamsOf
          (Event.compose (ForensicPipeline.plainBranchParams BackgroundType.transparent
            (AutoProcess.resolveSettingsAuto reg load).1.customColor img) :: encodeTail env) := by
        simpa [composeParamsOf_map_log, composeParamsOf_append] using hp
      rw [composeParamsOf_compose, composeParamsOf_encodeTail] at hp'
      rcases List.mem_singleton.mp hp' with rfl
      exact ⟨rfl, rfl⟩

theorem C1_witness :
    (ForensicPipeline.plainBranchParams BackgroundType.transparent "#667eea"
        { width := 800, height := 600 }).padding = 0 ∧
    (ForensicPipeline.plainBranchParams BackgroundType.transparent "#667eea"
        { width := 800, height := 600 }).shadow =
      { blur := 0, offsetX := 0, offsetY := 0, opacity := 0 } :=
  (C1_transparent_forces_zero_padding_and_shadow regA envA (some loadTransparent)
    "shot.png" none "2024-01-01T00:00:00Z" (by decide)).1 _ (by decide)

/-- C2: `appendForensicMetadata` preserves the width and grows the height by exactly
`footerHeight = 2×12 + 2×18 + 4 = 64` pixels, for every input canvas; and with the
forensic toggle disabled, the pipeline's forensic step returns the composite canvas
unchanged (no footer, identical dimensions and operations). -/
theorem C2_footer_growth_and_disabled_noop :
    (∀ (c : Canvas) (opts : ForensicMetadataOptions),
        (appendForensicMetadata c opts).width = c.width ∧
        (appendForensicMetadata c opts).height = c.height + 64 ∧
        2 * 12 + 2 * 18 + 4 = 64) ∧
    (∀ (team user : String) (optTs : Option String) (now : String) (c : Canvas),
        applyForensicMetadata false team user optTs now c = c) := by
  refine ⟨fun c opts => ⟨rfl, rfl, rfl⟩, fun team user optTs now c => rfl⟩

/-- C3: the forensic footer draws exactly two text lines, `"UTC: {timestampUtc}"` and
`"User: {userLabel}"`, in `#0f172a` with baseline `top`, at `x = 24`, first line at
`y = originalHeight + 12` and the second offset down by `lineHeight + lineGap = 22`;
the label rendered by the enabled forensic step is `"{team}/{user}"` where each
component is replaced by the literal `"unknown"` exactly when it is blank after
trimming. -/
theorem C3_footer_text_lines :
    (∀ (c : Canvas) (opts : ForensicMetadataOptions),
        textOps (appendForensicMetadata c opts) =
          [ DrawOp.fillText ("UTC: " ++ opts.timestampUtc) 24 (c.height + 12)
              "#0f172a" "top" ("14px " ++ FONT_FAMILY)
          , DrawOp.fillText ("User: " ++ opts.userLabel) 24 (c.height + 12 + 22)
              "#0f172a" "top" ("14px " ++ FONT_FAMILY) ]) ∧
    (∀ (team user : String) (optTs : Option String) (now : String) (c : Canvas),
        applyForensicMetadata true team user optTs now c =
          appendForensicMetadata c
            { timestampUtc := optTs.getD now
              userLabel :=
                (if team.trim = "" then "unknown" else team.trim) ++ "/" ++
                (if user.trim = "" then "unknown" else user.trim) }) := by
  constructor
  · intro c opts
    show textOps (appendForensicMetadata c opts) = _
    simp only [appendForensicMetadata, textOps, List.filter]
    norm_num
    decide
  · intro team user optTs now c
    rfl

/-- C4: when the background type resolves to `image`/`gradient` but the stored
reference is unresolvable through the registry, the pipeline silently substitutes the
built-in default background path before any decode is attempted: the resolved path is
the default, the (single) background decode started in the trace targets the default,
the run still succeeds whenever the default decodes (and the blob/read steps work),
and a background-load rejection can occur only if the default itself fails to decode. -/
theorem C4_stale_reference_falls_back_to_default
    (reg : AssetRegistry) (env : Env) (s : StoredSettings) (r : String)
    (imagePath : String) (optTs : Option String) (now : String)
    (hr : s.defaultBackgroundImage = some r) (hne : r ≠ "")
    (hstale : reg.lookup r = none)
    (hbt : (resolveSettings reg (some s)).1.backgroundType = BackgroundType.image ∨
           (resolveSettings reg (some s)).1.backgroundType = BackgroundType.gradient) :
    (resolveSettings reg (some s)).1.defaultBgImage = reg.defaultBackgroundPath ∧
    (∀ pth, pth ∈ bgStarts
        (ForensicPipeline.processScreenshotWithDefaultBackground reg env (some s)
          imagePath optTs now).2 →
      pth = reg.defaultBackgroundPath) ∧
    (∀ img bg, env.sourceDecode (env.convertFileSrc imagePath) = some img →
      env.bgDecode reg.defaultBackgroundPath = some bg →
      env.blobOk = true → env.readOk = true →
      ∃ out, (ForensicPipeline.processScreenshotWithDefaultBackground reg env (some s)
        imagePath optTs now).1 = Except.ok out) ∧
    (∀ img, env.sourceDecode (env.convertFileSrc imagePath) = some img →
      (ForensicPipeline.processScreenshotWithDefaultBackground reg env (some s)
        imagePath optTs now).1 = Except.error "Failed to load background image" →
      env.bgDecode reg.defaultBackgroundPath = none) := by
  have hbt' : ((resolveSettings reg (some s)).1.backgroundType == BackgroundType.image
      || (resolveSettings reg (some s)).1.backgroundType == BackgroundType.gradient) = true := by
    rcases hbt with h | h <;> rw [h] <;> rfl
  have hdbi : (resolveSettings reg (some s)).1.defaultBgImage = reg.defaultBackgroundPath := by
    rw [resolveSettings_defaultBgImage_eq, hr]
    simp [hne, hbt', resolveBackgroundPath, hstale]
  refine ⟨hdbi, ?_, ?_, ?_⟩
  · intro pth hpth
    rw [forensic_run_trace] at hpth
    rcases hsd : env.sourceDecode (env.convertFileSrc imagePath) with _ | img
    · rw [hsd] at hpth
      simp [bgStarts, bgStarts_map_log, bgStarts_append] at hpth
    · rw [hsd] at hpth
      simp only [hbt', if_true, List.cons_append, List.nil_append] at hpth
      rcases hbg : env.bgDecode (resolveSettings reg (some s)).1.defaultBgImage with _ | bg <;>
        rw [hbg] at hpth <;>
        rcases hblob : env.blobOk <;>
        · simp [bgStarts, bgStarts_map_log, encodeTail, hblob] at hpth
          exact hpth.trans hdbi
  · intro img bg hsd hbg hblob hread
    rw [forensic_run_result, hsd]
    simp only [hbt', if_true, hdbi, hbg]
    simp only [encodeResult, hblob, hread, if_true]
    exact ⟨_, rfl⟩
  · intro img hsd hres
    rw [forensic_run_result, hsd] at hres
    simp only [hbt', if_true, hdbi] at hres
    rcases hbg : env.bgDecode reg.defaultBackgroundPath with _ | bg
    · rfl
    · rw [hbg] at hres
      exfalso
      unfold encodeResult at hres
      rcases hblob : env.blobOk <;> rcases hread : env.readOk <;>
        rw [hblob] at hres <;> simp [hread] at hres

theorem C4_witness :
    (resolveSettings regA (some loadStale)).1.defaultBgImage = regA.defaultBackgroundPath ∧
    ∃ out, (ForensicPipeline.processScreenshotWithDefaultBackground regA envA
      (some loadStale) "shot.png" none "2024-01-01T00:00:00Z").1 = Except.ok out :=
  have h := C4_stale_reference_falls_back_to_default regA envA loadStale "stale-asset"
    "shot.png" none "2024-01-01T00:00:00Z" rfl (by decide) (by decide) (Or.inl (by decide))
  ⟨h.1, h.2.2.1 { width := 800, height := 600 } { width := 1920, height := 1080 }
    rfl rfl rfl rfl⟩

/-- C5: when loading the settings store throws, the run is not rejected on that
account: the resolved configuration is exactly the documented defaults (`image`
background, custom colour `#667eea`, the built-in default background path, forensics
disabled with blank labels), the failure is logged, and the pipeline still proceeds to
decode the source image. -/
theorem C5_settings_failure_recovers_with_defaults
    (reg : AssetRegistry) (env : Env) (imagePath : String)
    (optTs : Option String) (now : String) :
    resolveSettings reg none =
      ({ backgroundType := BackgroundType.image
         customColor := "#667eea"
         defaultBgImage := reg.defaultBackgroundPath
         forensicEnabled := false
         forensicTeam := ""
         forensicUser := "" }, [settingsFailureLog]) ∧
    AutoProcess.resolveSettingsAuto reg none =
      ({ backgroundType := BackgroundType.image
         customColor := "#667eea"
         defaultBgImage := reg.defaultBackgroundPath }, [settingsFailureLog]) ∧
    Event.log settingsFailureLog ∈
      (ForensicPipeline.processScreenshotWithDefaultBackground reg env none imagePath
        optTs now).2 ∧
    Event.sourceDecodeStart (env.convertFileSrc imagePath) ∈
      (ForensicPipeline.processScreenshotWithDefaultBackground reg env none imagePath
        optTs now).2 := by
  refine ⟨rfl, rfl, ?_, ?_⟩ <;>
    rw [forensic_run_trace] <;>
    rcases hsd : env.sourceDecode (env.convertFileSrc imagePath) with _ | img <;>
    simp [resolveSettings]

/-- C6: every stage failure terminally rejects the invocation with its message and no
output artifact: a source-decode failure rejects with `"Failed to load image from: …"`;
a background-decode failure (in the `image`/`gradient` branch) rejects with
`"Failed to load background image"`; a null blob or a reader failure also forces a
rejection, never an `Except.ok` artifact.  Moreover a run starts each decode at most
once: the pipeline performs no retries within an invocation. -/
theorem C6_stage_failures_terminal_no_retries
    (reg : AssetRegistry) (env : Env) (load : Option StoredSettings)
    (imagePath : String) (optTs : Option String) (now : String) :
    (env.sourceDecode (env.convertFileSrc imagePath) = none →
      (ForensicPipeline.processScreenshotWithDefaultBackground reg env load imagePath
        optTs now).1 = Except.error ("Failed to load image from: " ++ imagePath)) ∧
    (∀ img, env.sourceDecode (env.convertFileSrc imagePath) = some img →
      ((resolveSettings reg load).1.backgroundType == BackgroundType.image
        || (resolveSettings reg load).1.backgroundType == BackgroundType.gradient) = true →
      env.bgDecode (resolveSettings reg load).1.defaultBgImage = none →
      (ForensicPipeline.processScreenshotWithDefaultBackground reg env load imagePath
        optTs now).1 = Except.error "Failed to load background image") ∧
    (env.blobOk = false → ∀ out,
      (ForensicPipeline.processScreenshotWithDefaultBackground reg env load imagePath
        optTs now).1 ≠ Except.ok out) ∧
    (env.readOk = false → ∀ out,
      (ForensicPipeline.processScreenshotWithDefaultBackground reg env load imagePath
        optTs now).1 ≠ Except.ok out) ∧
    (sourceStarts (ForensicPipeline.processScreenshotWithDefaultBackground reg env load
      imagePath optTs now).2).length ≤ 1 ∧
    (bgStarts (ForensicPipeline.processScreenshotWithDefaultBackground reg env load
      imagePath optTs now).2).length ≤ 1 := by
  refine ⟨?_, ?_, ?_, ?_, ?_, ?_⟩
  · intro h
    rw [forensic_run_result, h]
  · intro img hsd hbt hbg
    rw [forensic_run_result, hsd]
    simp only [hbt, if_true, hbg]
  · intro hblob out
    rw [forensic_run_result]
    rcases hsd : env.sourceDecode (env.convertFileSrc imagePath) with _ | img
    · simp
    · rcases hbt : ((resolveSettings reg load).1.backgroundType == BackgroundType.image
          || (resolveSettings reg load).1.backgroundType == BackgroundType.gradient) with _ | _
      · simp [hbt, encodeResult, hblob]
      · rcases hbg : env.bgDecode (resolveSettings reg load).1.defaultBgImage with _ | bg
        · simp [hbt, hbg]
        · simp [hbt, hbg, encodeResult, hblob]
  · intro hread out
    rw [forensic_run_result]
    rcases hsd : env.sourceDecode (env.convertFileSrc imagePath) with _ | img
    · simp
    · rcases hblob : env.blobOk
      · rcases hbt : ((resolveSettings reg load).1.backgroundType == BackgroundType.image
            || (resolveSettings reg load).1.backgroundType == BackgroundType.gradient) with _ | _
        · simp [hbt, encodeResult, hblob]
        · rcases hbg : env.bgDecode (resolveSettings reg load).1.defaultBgImage with _ | bg
          · simp [hbt, hbg]
          · simp [hbt, hbg, encodeResult, hblob]
      · rcases hbt : ((resolveSettings reg load).1.backgroundType == BackgroundType.image
            || (resolveSettings reg load).1.backgroundType == BackgroundType.gradient) with _ | _
        · simp [hbt, encodeResult, hblob, hread]
        · rcases hbg : env.bgDecode (resolveSettings reg load).1.defaultBgImage with _ | bg
          · simp [hbt, hbg]
          · simp [hbt, hbg, encodeResult, hblob, hread]
  · rw [forensic_run_trace]
    rcases hsd : env.sourceDecode (env.convertFileSrc imagePath) with _ | img
    · simp
    · rcases hbt : ((resolveSettings reg load).1.backgroundType == BackgroundType.image
          || (resolveSettings reg load).1.backgroundType == BackgroundType.gradient) with _ | _
      · simp [hbt]
      · rcases hbg : env.bgDecode (resolveSettings reg load).1.defaultBgImage with _ | bg <;>
          simp [hbt, hbg]
  · rw [forensic_run_trace]
    rcases hsd : env.sourceDecode (env.convertFileSrc imagePath) with _ | img
    · simp
    · rcases hbt : ((resolveSettings reg load).1.backgroundType == BackgroundType.image
          || (resolveSettings reg load).1.backgroundType == BackgroundType.gradient) with _ | _
      · simp [hbt]
      · rcases hbg : env.bgDecode (resolveSettings reg load).1.defaultBgImage with _ | bg <;>
          simp [hbt, hbg]

theorem C6_witness :
    (ForensicPipeline.processScreenshotWithDefaultBackground regA envSourceFail
      (some loadStale) "missing.png" none "2024-01-01T00:00:00Z").1 =
      Except.error ("Failed to load image from: " ++ "missing.png") :=
  (C6_stage_failures_terminal_no_retries regA envSourceFail (some loadStale)
    "missing.png" none "2024-01-01T00:00:00Z").1 rfl

/-- C7: a background decode is started only after the source decode has completed:
whenever the trace contains a `bgDecodeStart`, the trace splits as
`pre ++ sourceLoaded :: suf` with every `bgDecodeStart` in `suf` and none in `pre`
(the assignment of `bgImage.src` happens only inside the source image's `onload`
handler). -/
theorem C7_bg_decode_starts_only_after_source_loaded
    (reg : AssetRegistry) (env : Env) (load : Option StoredSettings)
    (imagePath : String) (optTs : Option String) (now : String) (pth : String)
    (hmem : Event.bgDecodeStart pth ∈
      (ForensicPipeline.processScreenshotWithDefaultBackground reg env load imagePath
        optTs now).2) :
    ∃ pre suf,
      (ForensicPipeline.processScreenshotWithDefaultBackground reg env load imagePath
        optTs now).2 = pre ++ Event.sourceLoaded :: suf ∧
      Event.bgDecodeStart pth ∈ suf ∧
      ∀ q, Event.bgDecodeStart q ∉ pre := by
  rw [forensic_run_trace] at hmem ⊢
  rcases hsd : env.sourceDecode (env.convertFileSrc imagePath) with _ | img
  · rw [hsd] at hmem
    simp at hmem
  · rw [hsd] at hmem
    rcases hbt : ((resolveSettings reg load).1.backgroundType == BackgroundType.image
        || (resolveSettings reg load).1.backgroundType == BackgroundType.gradient) with _ | _
    · exfalso
      simp only [hbt, Bool.false_eq_true, if_false] at hmem
      rcases hblob : env.blobOk <;> simp [encodeTail, hblob] at hmem
    · simp only [hbt, if_true] at hmem ⊢
      refine ⟨Event.settingsLoad :: (resolveSettings reg load).2.map Event.log
          ++ [Event.sourceDecodeStart (env.convertFileSrc imagePath)],
        Event.bgDecodeStart (resolveSettings reg load).1.defaultBgImage ::
          (match env.bgDecode (resolveSettings reg load).1.defaultBgImage with
           | none => [Event.bgError]
           | some bg =>
             [Event.bgLoaded,
               Event.compose (ForensicPipeline.bgBranchParams
                 (resolveSettings reg load).1.backgroundType
                 (resolveSettings reg load).1.customColor
                 (resolveSettings reg load).1.defaultBgImage img bg)] ++ encodeTail env),
        ?_, ?_, ?_⟩
      · simp
      · rcases hbg : env.bgDecode (resolveSettings reg load).1.defaultBgImage with _ | bg <;>
          rcases hblob : env.blobOk <;>
          simp [hbg, encodeTail, hblob] at hmem <;>
          simp [hbg, hmem]
      · intro q
        simp

theorem C7_witness :
    ∃ pre suf,
      (ForensicPipeline.processScreenshotWithDefaultBackground regA envA (some loadStale)
        "shot.png" none "2024-01-01T00:00:00Z").2 = pre ++ Event.sourceLoaded :: suf ∧
      Event.bgDecodeStart "/assets/backgrounds/default.jpg" ∈ suf ∧
      ∀ q, Event.bgDecodeStart q ∉ pre :=
  C7_bg_decode_starts_only_after_source_loaded regA envA (some loadStale) "shot.png"
    none "2024-01-01T00:00:00Z" "/assets/backgrounds/default.jpg" (by decide)

/-- C8: every successful invocation encodes the final surface via
`toBlob("image/png", 1.0)` — the trace carries the encode event with mime
`"image/png"` and quality `1` — and resolves with the data-URL string the
`FileReader` produced from the encoded blob. -/
theorem C8_success_yields_png_data_url
    (reg : AssetRegistry) (env : Env) (load : Option StoredSettings)
    (imagePath : String) (optTs : Option String) (now : String) (out : String)
    (h : (ForensicPipeline.processScreenshotWithDefaultBackground reg env load imagePath
      optTs now).1 = Except.ok out) :
    Event.encode "image/png" 1 ∈
      (ForensicPipeline.processScreenshotWithDefaultBackground reg env load imagePath
        optTs now).2 ∧
    env.blobOk = true ∧ env.readOk = true ∧
    ∃ c : Canvas, out = env.mkDataURL (env.encodeBlob c) := by
  rw [forensic_run_result] at h
  rw [forensic_run_trace]
  rcases hsd : env.sourceDecode (env.convertFileSrc imagePath) with _ | img
  · rw [hsd] at h
    simp at h
  · simp only [hsd] at h ⊢
    rcases hbt : ((resolveSettings reg load).1.backgroundType == BackgroundType.image
        || (resolveSettings reg load).1.backgroundType == BackgroundType.gradient) with _ | _
    · simp only [hbt, Bool.false_eq_true, if_false] at h ⊢
      obtain ⟨hb, hr, hout⟩ := encodeResult_ok _ _ _ h
      exact ⟨by simp [encodeTail, hb], hb, hr, _, hout⟩
    · simp only [hbt, if_true] at h ⊢
      rcases hbg : env.bgDecode (resolveSettings reg load).1.defaultBgImage with _ | bg
      · simp [hbg] at h
      · simp only [hbg] at h
        obtain ⟨hb, hr, hout⟩ := encodeResult_ok _ _ _ h
        exact ⟨by simp [hbg, encodeTail, hb], hb, hr, _, hout⟩

theorem C8_witness :
    Event.encode "image/png" 1 ∈
      (ForensicPipeline.processScreenshotWithDefaultBackground regA envA (some loadStale)
        "shot.png" none "2024-01-01T00:00:00Z").2 ∧
    envA.blobOk = true ∧ envA.readOk = true ∧
    ∃ c : Canvas, "data:image/png;base64,PNGBYTES" =
      envA.mkDataURL (envA.encodeBlob c) :=
  C8_success_yields_png_data_url regA envA (some loadStale) "shot.png" none
    "2024-01-01T00:00:00Z" "data:image/png;base64,PNGBYTES" (by rfl)

/-- C9: with a non-`transparent` resolved background type, every compositor invocation
of a run receives the fixed constants `padding = 100`, `borderRadius = 18`,
`noiseAmount = 20`, `blurAmount = 0` and `shadow = {blur 33, offsetX 18, offsetY 23,
opacity 39}` — for every settings-store content and environment, so none of these
composition parameters is ever read from the store. -/
theorem C9_composition_constants_fixed
    (reg : AssetRegistry) (env : Env) (load : Option StoredSettings)
    (imagePath : String) (optTs : Option String) (now : String)
    (hnt : (resolveSettings reg load).1.backgroundType ≠ BackgroundType.transparent)
    (p : CompositorParams)
    (hp : p ∈ composeParamsOf
      (ForensicPipeline.processScreenshotWithDefaultBackground reg env load imagePath
        optTs now).2) :
    p.padding = 100 ∧ p.borderRadius = 18 ∧ p.noiseAmount = 20 ∧ p.blurAmount = 0 ∧
      p.shadow = { blur := 33, offsetX := 18, offsetY := 23, opacity := 39 } := by
  have hnt' : ((resolveSettings reg load).1.backgroundType == BackgroundType.transparent)
      = false := beq_eq_false_iff_ne.mpr hnt
  rw [forensic_run_trace] at hp
  rcases hsd : env.sourceDecode (env.convertFileSrc imagePath) with _ | img
  · rw [hsd] at hp
    simp at hp
  · simp only [hsd] at hp
    rcases hbt : ((resolveSettings reg load).1.backgroundType == BackgroundType.image
        || (resolveSettings reg load).1.backgroundType == BackgroundType.gradient) with _ | _
    · simp only [hbt, Bool.false_eq_true, if_false] at hp
      simp [composeParamsOf_append, composeParamsOf_encodeTail] at hp
      subst hp
      simp [ForensicPipeline.plainBranchParams, hnt']
    · simp only [hbt, if_true] at hp
      rcases hbg : env.bgDecode (resolveSettings reg load).1.defaultBgImage with _ | bg
      · simp [hbg] at hp
      · simp [hbg, composeParamsOf_append, composeParamsOf_encodeTail] at hp
        subst hp
        simp [ForensicPipeline.bgBranchParams]

theorem C9_witness :
    (ForensicPipeline.bgBranchParams BackgroundType.image "#667eea"
        "/assets/backgrounds/default.jpg" { width := 800, height := 600 }
        { width := 1920, height := 1080 }).padding = 100 ∧
    (ForensicPipeline.bgBranchParams BackgroundType.image "#667eea"
        "/assets/backgrounds/default.jpg" { width := 800, height := 600 }
        { width := 1920, height := 1080 }).borderRadius = 18 ∧
    (ForensicPipeline.bgBranchParams BackgroundType.image "#667eea"
        "/assets/backgrounds/default.jpg" { width := 800, height := 600 }
        { width := 1920, height := 1080 }).noiseAmount = 20 ∧
    (ForensicPipeline.bgBranchParams BackgroundType.image "#667eea"
        "/assets/backgrounds/default.jpg" { width := 800, height := 600 }
        { width := 1920, height := 1080 }).blurAmount = 0 ∧
    (ForensicPipeline.bgBranchParams BackgroundType.image "#667eea"
        "/assets/backgrounds/default.jpg" { width := 800, height := 600 }
        { width := 1920, height := 1080 }).shadow =
      { blur := 33, offsetX := 18, offsetY := 23, opacity := 39 } :=
  C9_composition_constants_fixed regA envA (some loadStale) "shot.png" none
    "2024-01-01T00:00:00Z" (by decide) _ (by decide)

/-- C10: with the forensic toggle resolved to disabled, the newer orchestrator (with
the `applyForensicMetadata` step) resolves to exactly the same output data-URL as the
older orchestrator that lacks the forensic step, for equal settings, source path and
decode outcomes. -/
theorem C10_disabled_forensics_matches_legacy
    (reg : AssetRegistry) (env : Env) (load : Option StoredSettings)
    (imagePath : String) (optTs : Option String) (now : String)
    (h : (resolveSettings reg load).1.forensicEnabled = false) :
    (ForensicPipeline.processScreenshotWithDefaultBackground reg env load imagePath
      optTs now).1 =
    (AutoProcess.processScreenshotWithDefaultBackground reg env load imagePath).1 := by
  obtain ⟨hbt, hcc, hdbi, -⟩ := resolveSettingsAuto_agrees reg load
  rcases hsd : env.sourceDecode (env.convertFileSrc imagePath) with _ | img
  · rw [forensic_run_result, auto_run_result, hsd]
  · rw [forensic_run_result, auto_run_result]
    simp only [hsd, hbt, hcc, hdbi, h, applyForensicMetadata_disabled]

theorem C10_witness :
    (ForensicPipeline.processScreenshotWithDefaultBackground regA envA (some loadStale)
      "shot.png" none "2024-01-01T00:00:00Z").1 =
    (AutoProcess.processScreenshotWithDefaultBackground regA envA (some loadStale)
      "shot.png").1 :=
  C10_disabled_forensics_matches_legacy regA envA (some loadStale) "shot.png" none
    "2024-01-01T00:00:00Z" (by decide)
